import Mathlib

/-!
# Verification of `scripts/openai_token_usage.py`

A shallow embedding of the token-usage reporting script, together with
theorems settling the behavioural claims about it.

The script has three components:
* `admin_get` — an authenticated GET wrapper (credential check, HTTP
  status check, transport errors);
* `get_recent_completions_usage` — computes the request time window and
  parameters, fetches the JSON payload, and annotates each bucket with an
  ISO-8601 UTC datetime string;
* `printable_completions_usage` — formats the payload as a width-aligned
  Markdown table;
* `main` — fetch, format, print, write to file.

JSON dictionaries are embedded as structures whose optional fields are
`Option`s (a `none` field models an absent key).  The network is embedded
as an oracle value describing the single HTTP exchange.  Machine integers
are `Nat`/`Int` (Python integers are unbounded, so no wrap-around
modelling is needed).
-/

namespace TokenUsage

/-! ## Data model

One usage result, i.e. one (day, model) aggregation row of the payload.
Fields mirror the JSON keys read by the script: `object`, `model`,
`input_tokens`, `output_tokens`, `num_model_requests`. -/

structure UsageResult where
  object : Option String
  model : Option String
  input_tokens : Option Nat
  output_tokens : Option Nat
  num_model_requests : Option Nat
  deriving DecidableEq, Repr

/-- One daily bucket of the payload.  The script reads `start_time`,
`start_datetime`, and the per-result list under either of the two field
names `results` (plural) and `result` (singular). -/
structure UsageBucket where
  start_time : Option Int
  start_datetime : Option String
  results : Option (List UsageResult)
  result : Option (List UsageResult)
  deriving DecidableEq, Repr

/-- The parsed top-level payload; `data` is `none` when the `"data"` key is
absent (the script reads it with `usage.get("data", [])`). -/
structure Usage where
  data : Option (List UsageBucket)
  deriving DecidableEq, Repr

/-! ## Report formatter (`printable_completions_usage`, lines 95–186) -/

/-- The object tag expected on completions results (line 135). -/
def EXPECTED_OBJECT : String := "organization.usage.completions.result"

/-- One rendered table row as a 6-tuple of cell strings (line 149–156). -/
structure Row where
  date : String
  model : String
  input : String
  output : String
  total : String
  requests : String
  deriving DecidableEq, Repr

/-- The six cells of a row, in column order. -/
def Row.cells (r : Row) : List String :=
  [r.date, r.model, r.input, r.output, r.total, r.requests]

/-- Lines 124–126: `results = bucket.get("results")`, falling back to
`bucket.get("result") or []` when the plural key is absent (the `or []`
turns a falsy value — `None` or `[]` — into `[]`, which `getD []` matches
since a present empty list maps to itself). -/
def bucketResults (b : UsageBucket) : List UsageResult :=
  match b.results with
  | some rs => rs
  | none => b.result.getD []

/-- Lines 130–131: `date_iso = bucket.get("start_datetime", "")` and
`date_str = date_iso[:10] if date_iso else ""` (an absent or empty
`start_datetime` yields the empty date string). -/
def bucketDateStr (b : UsageBucket) : String :=
  let date_iso := b.start_datetime.getD ""
  if date_iso = "" then "" else date_iso.take 10

/-- Line 137: `model_full = result.get("model") or "(all models)"` — a
missing or empty (falsy) model name defaults to the literal. -/
def modelFull (r : UsageResult) : String :=
  match r.model with
  | some m => if m = "" then "(all models)" else m
  | none => "(all models)"

/-- Lines 139–141: the display name is the full name truncated to
`max_model_length` characters when that bound is positive and exceeded
(`if max_model_length > 0 and len(model_display) > max_model_length`). -/
def modelDisplay (maxModelLength : Nat) (r : UsageResult) : String :=
  let f := modelFull r
  if 0 < maxModelLength ∧ maxModelLength < f.length then
    f.take maxModelLength
  else f

/-- Lines 137–156: build one rendered row from a matching result.  The
numeric fields default to `0` when absent (`int(result.get(...) or 0)`),
and the total is always `input_tokens + output_tokens`. -/
def mkRow (dateCell : String) (maxModelLength : Nat) (r : UsageResult) : Row :=
  let model_display := modelDisplay maxModelLength r
  let input_tokens := r.input_tokens.getD 0
  let output_tokens := r.output_tokens.getD 0
  let total_tokens := input_tokens + output_tokens
  let num_requests := r.num_model_requests.getD 0
  { date := dateCell
    model := model_display
    input := toString input_tokens
    output := toString output_tokens
    total := toString total_tokens
    requests := toString num_requests }

/-- Lines 132–157: the inner loop over a bucket's results.  Results whose
`object` tag differs from the expected one are skipped (and do not consume
the `first_for_day` flag); the first emitted row carries `dateStr`, later
ones an empty date cell. -/
def resultsRows (dateStr : String) (maxModelLength : Nat)
    (firstForDay : Bool) : List UsageResult → List Row
  | [] => []
  | r :: rs =>
    if r.object = some EXPECTED_OBJECT then
      mkRow (if firstForDay then dateStr else "") maxModelLength r ::
        resultsRows dateStr maxModelLength false rs
    else
      resultsRows dateStr maxModelLength firstForDay rs

/-- Lines 121–157 for one bucket: buckets with an empty result list are
skipped (`if not results: continue`). -/
def bucketRows (maxModelLength : Nat) (b : UsageBucket) : List Row :=
  let results := bucketResults b
  if results.isEmpty then []
  else resultsRows (bucketDateStr b) maxModelLength true results

/-- All data rows of the table, in payload order (the outer loop of lines
121–160 over `usage.get("data", [])`). -/
def tableRows (u : Usage) (maxModelLength : Nat) : List Row :=
  (u.data.getD []).flatMap (bucketRows maxModelLength)

/-- The tracked maximum width of each of the six columns (the `widths`
list of the script, indexed here by column name). -/
structure Widths where
  date : Nat
  model : Nat
  input : Nat
  output : Nat
  total : Nat
  requests : Nat
  deriving DecidableEq, Repr

/-- Line 120: widths are initialised from the header labels
`("UTC Date", "Model", "Input", "Output", "Total", "Requests")`. -/
def initWidths : Widths :=
  { date := "UTC Date".length
    model := "Model".length
    input := "Input".length
    output := "Output".length
    total := "Total".length
    requests := "Requests".length }

/-- Lines 158–160: `widths[i] = max(widths[i], len(cell))` for each cell of
an appended row. -/
def updateWidths (ws : Widths) (r : Row) : Widths :=
  { date := max ws.date r.date.length
    model := max ws.model r.model.length
    input := max ws.input r.input.length
    output := max ws.output r.output.length
    total := max ws.total r.total.length
    requests := max ws.requests r.requests.length }

/-- The final column widths: the running update folded over all data rows
(widths are only read after the collection loop finishes, so the final
value is this fold). -/
def tableWidths (u : Usage) (maxModelLength : Nat) : Widths :=
  (tableRows u maxModelLength).foldl updateWidths initWidths

/-- Python `str.ljust`: pad on the right with spaces to width `w`
(a string at least `w` long is returned unchanged). -/
def ljust (s : String) (w : Nat) : String :=
  s ++ String.mk (List.replicate (w - s.length) ' ')

/-- Python `str.rjust`: pad on the left with spaces to width `w`. -/
def rjust (s : String) (w : Nat) : String :=
  String.mk (List.replicate (w - s.length) ' ') ++ s

/-- `"-" * w` of the separator row. -/
def dashes (w : Nat) : String := String.mk (List.replicate w '-')

/-- Lines 164–168: the header row, every label left-justified. -/
def headerRow (ws : Widths) : String :=
  "| " ++ String.intercalate " | "
    [ ljust "UTC Date" ws.date
    , ljust "Model" ws.model
    , ljust "Input" ws.input
    , ljust "Output" ws.output
    , ljust "Total" ws.total
    , ljust "Requests" ws.requests ] ++ " |"

/-- Lines 171–173: the separator row, dashes sized per column. -/
def separatorRow (ws : Widths) : String :=
  "| " ++ String.intercalate " | "
    [ dashes ws.date, dashes ws.model, dashes ws.input
    , dashes ws.output, dashes ws.total, dashes ws.requests ] ++ " |"

/-- Lines 176–185: a data row; date and model are left-aligned, the four
numeric columns right-aligned (`if i <= 1` in the script). -/
def renderRow (ws : Widths) (r : Row) : String :=
  "| " ++ String.intercalate " | "
    [ ljust r.date ws.date
    , ljust r.model ws.model
    , rjust r.input ws.input
    , rjust r.output ws.output
    , rjust r.total ws.total
    , rjust r.requests ws.requests ] ++ " |"

/-- The full list of table lines: header, separator, then the data rows,
all rendered against the final tracked widths. -/
def tableLines (u : Usage) (maxModelLength : Nat) : List String :=
  let ws := tableWidths u maxModelLength
  headerRow ws :: separatorRow ws ::
    (tableRows u maxModelLength).map (renderRow ws)

/-- Line 186: the table text, lines joined with newlines. -/
def printable_completions_usage (u : Usage) (maxModelLength : Nat) : String :=
  String.intercalate "\n" (tableLines u maxModelLength)

/-! ## Time-window computation (`get_recent_completions_usage`, lines 57–82)

Timestamps are modelled as integer epoch seconds (UTC).  Sub-second parts
of "now" are irrelevant here: flooring to midnight absorbs them, and
`int(now.timestamp())` truncates them. -/

/-- Seconds per day; UTC epoch arithmetic has no leap seconds, so midnight
boundaries are exactly the multiples of 86400. -/
def SECS_PER_DAY : Int := 86400

/-- Line 59: `past_days = max(1, min(past_days + 1, 31))` — one extra day
so "today" is included, clamped to the API's 31-bucket limit. -/
def clampPastDays (past_days : Int) : Int :=
  max 1 (min (past_days + 1) 31)

/-- The query parameters of the usage request (lines 67–82).  `none`
models a parameter that is not sent. -/
structure CompletionsParams where
  start_time : Int
  end_time : Option Int
  limit : Int
  bucket_width : Option String
  group_by : Option (List String)
  deriving DecidableEq, Repr

/-- Lines 59–82: compute the request parameters.  `start_time` embeds
`(now - timedelta(days=past_days)).replace(hour=0, minute=0, second=0,
microsecond=0)`: subtract the clamped day count in seconds, then floor to
the UTC midnight of that instant's calendar day (`fdiv` is floor division,
matching Python's datetime semantics for times before the epoch). -/
def buildCompletionsParams (now : Int) (past_days : Int) (debug : Bool) :
    CompletionsParams :=
  let pd := clampPastDays past_days
  let start_time := SECS_PER_DAY * ((now - pd * SECS_PER_DAY).fdiv SECS_PER_DAY)
  if debug then
    { start_time := start_time, end_time := none, limit := 31
      bucket_width := none, group_by := none }
  else
    { start_time := start_time, end_time := some now, limit := pd
      bucket_width := some "1d", group_by := some ["model"] }

/-! ## ISO-8601 annotation (lines 86–92)

`datetime.fromtimestamp(ts, tz=timezone.utc).isoformat().replace("+00:00", "Z")`.
The civil date is obtained from the epoch day by the standard proleptic
Gregorian conversion (the same calendar `datetime` implements); divisions
follow the algorithm's C-style truncating division, which only ever acts
on non-negative operands here. -/

/-- `%0wd` zero-padding of a non-negative number to `w` digits. -/
def zfill (w : Nat) (n : Nat) : String :=
  let s := toString n
  String.mk (List.replicate (w - s.length) '0') ++ s

/-- Convert a count of days since 1970-01-01 to a civil (year, month, day)
in the proleptic Gregorian calendar. -/
def civilFromDays (z0 : Int) : Int × Nat × Nat :=
  let z := z0 + 719468
  let era : Int := (if 0 ≤ z then z else z - 146096).tdiv 146097
  let doe : Int := z - era * 146097
  let yoe : Int := (doe - doe.tdiv 1460 + doe.tdiv 36524 - doe.tdiv 146096).tdiv 365
  let y : Int := yoe + era * 400
  let doy : Int := doe - (365 * yoe + yoe.tdiv 4 - yoe.tdiv 100)
  let mp : Int := (5 * doy + 2).tdiv 153
  let d : Int := doy - (153 * mp + 2).tdiv 5 + 1
  let m : Int := mp + (if mp < 10 then 3 else -9)
  (y + (if m ≤ 2 then 1 else 0), m.toNat, d.toNat)

/-- The naive part of `isoformat()` for a UTC instant with zero
microseconds: `YYYY-MM-DDTHH:MM:SS` (seconds precision).  `datetime`
rejects years outside 1–9999, where this total model pads `y.toNat`. -/
def isoNaive (ts : Int) : String :=
  let days := ts.fdiv SECS_PER_DAY
  let sod := (ts - SECS_PER_DAY * days).toNat
  let ymd := civilFromDays days
  zfill 4 ymd.1.toNat ++ "-" ++ zfill 2 ymd.2.1 ++ "-" ++ zfill 2 ymd.2.2 ++
    "T" ++ zfill 2 (sod / 3600) ++ ":" ++ zfill 2 (sod % 3600 / 60) ++
    ":" ++ zfill 2 (sod % 60)

/-- Line 92: `start_dt.isoformat().replace("+00:00", "Z")`.  For an aware
UTC datetime with zero microseconds, `isoformat()` is exactly the naive
part followed by `"+00:00"`, and `'+'` occurs nowhere else in it (the rest
is digits, `-`, `:` and `T`), so the replacement yields the naive part
followed by `"Z"`. -/
def isoUtcZ (ts : Int) : String := isoNaive ts ++ "Z"

/-- The domain of `datetime.fromtimestamp(·, tz=timezone.utc)`: timestamps
whose civil year is 1–9999, i.e. from `0001-01-01T00:00:00Z` to
`9999-12-31T23:59:59Z`.  Outside it the library raises and the script's
annotation loop would propagate the exception, so claims about the
derived string are stated only on this domain (`isoNaive` itself is a
total function). -/
def fromtimestampValid (ts : Int) : Prop :=
  -62135596800 ≤ ts ∧ ts ≤ 253402300799

/-- Lines 87–92 for one bucket: a bucket with a `start_time` gets the
derived `start_datetime` field; one without is left untouched
(`continue`). -/
def annotateBucket (b : UsageBucket) : UsageBucket :=
  match b.start_time with
  | none => b
  | some ts => { b with start_datetime := some (isoUtcZ ts) }

/-- Lines 87–92: annotate every bucket of `usage.get("data", [])` in
place; a payload with no `"data"` key is returned unchanged. -/
def annotateUsage (u : Usage) : Usage :=
  match u.data with
  | none => u
  | some bs => { u with data := some (bs.map annotateBucket) }

/-! ## Authenticated fetch (`admin_get`, lines 12–39)

The single HTTP exchange is embedded as an oracle `NetBehavior`: either
the request completes with a status and a body, or it fails at the
transport level (`httpx.RequestError`).  The body is carried both as raw
text (used in error reporting) and in JSON-parsed form (`resp.json()`). -/

structure HttpResponse where
  status : Nat
  text : String
  payload : Usage
  deriving Repr

inductive NetBehavior
  | success (resp : HttpResponse)
  | failure

/-- The error taxonomy of the script: missing credential (`ValueError`),
non-2xx response (`httpx.HTTPStatusError` via `raise_for_status`), and
transport failure (`httpx.RequestError`). -/
inductive FetchError
  | configError (msg : String)
  | httpStatusError (status : Nat) (body : String)
  | requestError
  deriving DecidableEq, Repr

/-- Line 20: `if not api_key` — an unset (`None`) or empty credential is
falsy. -/
def keyMissing : Option String → Bool
  | none => true
  | some s => s = ""

/-- Lines 12–39: `admin_get`.  The returned `Nat` counts the `httpx.get`
calls issued (0 or 1).  The credential check precedes the request;
httpx's `raise_for_status` raises `HTTPStatusError` for any non-2xx
response (informational, redirect, client-error and server-error codes
alike; `httpx.get` does not follow redirects). -/
def admin_get (apiKey : Option String) (net : NetBehavior) :
    Except FetchError HttpResponse × Nat :=
  if keyMissing apiKey then
    (Except.error (FetchError.configError
      "Set OPENAI_ADMIN_KEY first (must be an *admin* key)."), 0)
  else
    match net with
    | NetBehavior.failure => (Except.error FetchError.requestError, 1)
    | NetBehavior.success resp =>
      if resp.status < 200 ∨ 300 ≤ resp.status then
        (Except.error (FetchError.httpStatusError resp.status resp.text), 1)
      else
        (Except.ok resp, 1)

/-- Lines 41–93: `get_recent_completions_usage` — build the parameters,
fetch, and annotate the parsed payload.  The result pairs the parameters
sent with the outcome; any fetch error propagates unchanged. -/
def get_recent_completions_usage (apiKey : Option String) (net : NetBehavior)
    (now : Int) (past_days : Int) (debug : Bool) :
    CompletionsParams × Except FetchError Usage :=
  let params := buildCompletionsParams now past_days debug
  match admin_get apiKey net with
  | (Except.error e, _) => (params, Except.error e)
  | (Except.ok resp, _) => (params, Except.ok (annotateUsage resp.payload))

/-- Lines 188–196: `main` — fetch 14 trailing days, format with the
default model-name limit, and write the report.  The second component is
the content written to the output file (`none`: nothing written; the
exception propagates before the `open`/`write` is reached). -/
def main (apiKey : Option String) (net : NetBehavior) (now : Int) :
    Except FetchError Unit × Option String :=
  match (get_recent_completions_usage apiKey net now 14 false).2 with
  | Except.error e => (Except.error e, none)
  | Except.ok usage =>
    let usage_report := printable_completions_usage usage 30
    (Except.ok (), some usage_report)

/-! ## Derived notions used by the statements -/

/-- The defensive filter of line 135 as a Boolean predicate. -/
def isExpectedResult (r : UsageResult) : Bool :=
  r.object = some EXPECTED_OBJECT

/-- Pointwise order on column-width records. -/
def WidthsLE (v w : Widths) : Prop :=
  v.date ≤ w.date ∧ v.model ≤ w.model ∧ v.input ≤ w.input ∧
    v.output ≤ w.output ∧ v.total ≤ w.total ∧ v.requests ≤ w.requests

/-- Every cell of the row fits inside the given column widths. -/
def RowFits (ws : Widths) (r : Row) : Prop :=
  r.date.length ≤ ws.date ∧ r.model.length ≤ ws.model ∧
    r.input.length ≤ ws.input ∧ r.output.length ≤ ws.output ∧
    r.total.length ≤ ws.total ∧ r.requests.length ≤ ws.requests

/-- The total character length of any rendered line: six padded cells plus
the fixed frame `"| "`, five `" | "` separators and `" |"` (2+15+2 = 19
frame characters). -/
def lineLength (ws : Widths) : Nat :=
  ws.date + ws.model + ws.input + ws.output + ws.total + ws.requests + 19

/-! ## Concrete inputs used by the witnesses -/

/-- The worked example of the spec: one result of the expected type. -/
def witResultA : UsageResult :=
  { object := some EXPECTED_OBJECT, model := some "gpt-4"
    input_tokens := some 100, output_tokens := some 50
    num_model_requests := some 3 }

def witBucketA : UsageBucket :=
  { start_time := some 1700000000
    start_datetime := some "2023-11-14T22:13:20Z"
    results := some [witResultA], result := none }

def witUsageA : Usage := { data := some [witBucketA] }

/-- A second result with missing fields, for the two-row bucket. -/
def witResultB : UsageResult :=
  { object := some EXPECTED_OBJECT, model := none
    input_tokens := none, output_tokens := some 7
    num_model_requests := none }

def witBucketB : UsageBucket :=
  { start_time := some 1700000000
    start_datetime := some "2023-11-14T00:00:00Z"
    results := some [witResultA, witResultB], result := none }

def witUsageB : Usage := { data := some [witBucketB] }

/-- The two rows the formatter emits for `witBucketB`. -/
def witRowB0 : Row :=
  { date := "2023-11-14", model := "gpt-4", input := "100"
    output := "50", total := "150", requests := "3" }

def witRowB1 : Row :=
  { date := "", model := "(all models)", input := "0"
    output := "7", total := "7", requests := "0" }

/-- A result with every optional field absent. -/
def witResultNone : UsageResult :=
  { object := some EXPECTED_OBJECT, model := none, input_tokens := none
    output_tokens := none, num_model_requests := none }

/-- A result whose model name has 34 characters, exceeding the default
display bound of 30. -/
def witResultLong : UsageResult :=
  { object := some EXPECTED_OBJECT
    model := some "ft:gpt-4o-mini-2024-07-18:acme:run"
    input_tokens := some 1, output_tokens := some 2
    num_model_requests := some 1 }

/-- A successful response carrying two buckets, one with and one without
a start timestamp. -/
def witBucketTs : UsageBucket :=
  { start_time := some 1700000000, start_datetime := none
    results := none, result := none }

def witBucketNoTs : UsageBucket :=
  { start_time := none, start_datetime := none
    results := none, result := none }

def witRespC : HttpResponse :=
  { status := 200, text := "ok"
    payload := { data := some [witBucketTs, witBucketNoTs] } }

/-! ## Basic projection lemmas -/

theorem mkRow_date (d : String) (m : Nat) (r : UsageResult) :
    (mkRow d m r).date = d := rfl

theorem mkRow_model (d : String) (m : Nat) (r : UsageResult) :
    (mkRow d m r).model = modelDisplay m r := rfl

theorem mkRow_input (d : String) (m : Nat) (r : UsageResult) :
    (mkRow d m r).input = toString (r.input_tokens.getD 0) := rfl

theorem mkRow_output (d : String) (m : Nat) (r : UsageResult) :
    (mkRow d m r).output = toString (r.output_tokens.getD 0) := rfl

theorem mkRow_total (d : String) (m : Nat) (r : UsageResult) :
    (mkRow d m r).total =
      toString (r.input_tokens.getD 0 + r.output_tokens.getD 0) := rfl

theorem mkRow_requests (d : String) (m : Nat) (r : UsageResult) :
    (mkRow d m r).requests = toString (r.num_model_requests.getD 0) := rfl

/-- The length of a truncated string: `min` of the bound and the original
length (characters, matching Python slicing). -/
theorem string_length_take (s : String) (n : Nat) :
    (s.take n).length = min n s.length := by
  rw [String.take_eq]
  show (s.data.take n).length = min n s.data.length
  exact List.length_take _ _

/-! ## C2 — the request window -/

/-- **C2.** For every day count `D` in `[1, 30]` and every current time,
the computed window has `start_time` at a UTC midnight exactly `D + 1`
calendar days before "now" (its epoch day index is now's minus `D + 1`),
`end_time` equal to now, and an effective bucket limit of `D + 1 ≤ 31`. -/
theorem claim2_request_window (D now : Int) (h1 : 1 ≤ D) (h2 : D ≤ 30) :
    clampPastDays D = D + 1 ∧
    (buildCompletionsParams now D false).start_time % 86400 = 0 ∧
    (buildCompletionsParams now D false).start_time.fdiv 86400 =
      now.fdiv 86400 - (D + 1) ∧
    (buildCompletionsParams now D false).end_time = some now ∧
    (buildCompletionsParams now D false).limit = D + 1 ∧
    (buildCompletionsParams now D false).limit ≤ 31 := by
  have hc : clampPastDays D = D + 1 := by
    rw [clampPastDays]; omega
  have hs : (buildCompletionsParams now D false).start_time =
      86400 * ((now - (D + 1) * 86400).fdiv 86400) := by
    simp [buildCompletionsParams, SECS_PER_DAY, hc]
  refine ⟨hc, ?_, ?_, ?_, ?_, ?_⟩
  · rw [hs]; exact Int.mul_emod_right _ _
  · rw [hs, Int.mul_fdiv_cancel_left _ (by norm_num)]
    rw [Int.fdiv_eq_ediv _ (by norm_num), Int.fdiv_eq_ediv _ (by norm_num)]
    have h3 : now - (D + 1) * 86400 = now + (-(D + 1)) * 86400 := by ring
    rw [h3, Int.add_mul_ediv_right _ _ (by norm_num)]
    ring
  · simp [buildCompletionsParams]
  · simp [buildCompletionsParams, hc]
  · simp [buildCompletionsParams, hc]; omega

/-- Witness for C2 at the script's default `D = 14` and a concrete now. -/
theorem claim2_request_window_witness :
    ((1:Int) ≤ 14 ∧ (14:Int) ≤ 30) ∧
    (clampPastDays 14 = 14 + 1 ∧
      (buildCompletionsParams 1700000000 14 false).start_time % 86400 = 0 ∧
      (buildCompletionsParams 1700000000 14 false).start_time.fdiv 86400 =
        (1700000000:Int).fdiv 86400 - (14 + 1) ∧
      (buildCompletionsParams 1700000000 14 false).end_time = some 1700000000 ∧
      (buildCompletionsParams 1700000000 14 false).limit = 14 + 1 ∧
      (buildCompletionsParams 1700000000 14 false).limit ≤ 31) :=
  ⟨⟨by norm_num, by norm_num⟩,
    claim2_request_window 14 1700000000 (by norm_num) (by norm_num)⟩

/-! ## C3 — missing credential halts before any network call -/

/-- **C3.** When the credential is unset or empty, `admin_get` returns the
configuration error and issues zero network requests, whatever the network
would have answered. -/
theorem claim3_config_error_before_network (key : Option String)
    (net : NetBehavior) (h : key = none ∨ key = some "") :
    admin_get key net =
      (Except.error (FetchError.configError
        "Set OPENAI_ADMIN_KEY first (must be an *admin* key)."), 0) := by
  rcases h with h | h <;> simp [admin_get, keyMissing, h]

/-- Witness for C3 with an unset credential and a network that would have
succeeded. -/
theorem claim3_config_error_before_network_witness :
    ((none : Option String) = none ∨ (none : Option String) = some "") ∧
    admin_get none (NetBehavior.success witRespC) =
      (Except.error (FetchError.configError
        "Set OPENAI_ADMIN_KEY first (must be an *admin* key)."), 0) :=
  ⟨Or.inl rfl,
    claim3_config_error_before_network none (NetBehavior.success witRespC)
      (Or.inl rfl)⟩

/-! ## C9 — no partial-success mode -/

/-- **C9.** Every run of the entry point either propagates an error with
nothing written to the output file, or succeeds on a sub-400 response and
writes the complete formatted report of the annotated payload. -/
theorem claim9_no_partial_success (key : Option String) (net : NetBehavior)
    (now : Int) :
    (∃ e, main key net now = (Except.error e, none)) ∨
    (∃ resp, net = NetBehavior.success resp ∧ resp.status < 400 ∧
      main key net now = (Except.ok (),
        some (printable_completions_usage (annotateUsage resp.payload) 30))) := by
  by_cases hk : keyMissing key
  · exact Or.inl ⟨FetchError.configError
      "Set OPENAI_ADMIN_KEY first (must be an *admin* key).",
      by simp [main, get_recent_completions_usage, admin_get, hk]⟩
  · cases net with
    | failure =>
      exact Or.inl ⟨FetchError.requestError,
        by simp [main, get_recent_completions_usage, admin_get, hk]⟩
    | success resp =>
      by_cases hs : resp.status < 200 ∨ 300 ≤ resp.status
      · exact Or.inl ⟨FetchError.httpStatusError resp.status resp.text,
          by simp [main, get_recent_completions_usage, admin_get, hk, hs]⟩
      · refine Or.inr ⟨resp, rfl, ?_, by simp [main,
          get_recent_completions_usage, admin_get, hk, hs]⟩
        push_neg at hs
        omega

/-! ## C6 — ISO-8601 annotation of buckets -/

/-- **C6.** On a successful fetch (2xx response, timestamps inside
`datetime`'s domain) the returned payload is the parsed body with every
bucket mapped by `annotateBucket`: the bucket count is preserved, a
bucket without a start timestamp is unmodified, and a bucket with one
gets `start_datetime` set to the derived seconds-precision ISO-8601 UTC
string, which ends in `"Z"`. -/
theorem claim6_bucket_annotation (key : Option String) (net : NetBehavior)
    (now pastDays : Int) (dbg : Bool) (resp : HttpResponse)
    (bs : List UsageBucket)
    (hnet : net = NetBehavior.success resp)
    (hkey : keyMissing key = false)
    (h2xx : 200 ≤ resp.status ∧ resp.status < 300)
    (hdata : resp.payload.data = some bs)
    (hdom : ∀ b ∈ bs, ∀ ts : Int, b.start_time = some ts →
      fromtimestampValid ts) :
    (get_recent_completions_usage key net now pastDays dbg).2 =
      Except.ok (annotateUsage resp.payload) ∧
    (annotateUsage resp.payload).data = some (bs.map annotateBucket) ∧
    (bs.map annotateBucket).length = bs.length ∧
    ∀ b ∈ bs,
      (b.start_time = none → annotateBucket b = b) ∧
      ∀ ts : Int, b.start_time = some ts →
        fromtimestampValid ts ∧
        annotateBucket b = { b with start_datetime := some (isoUtcZ ts) } ∧
        ∃ s, isoUtcZ ts = s ++ "Z" := by
  have hns : ¬ (resp.status < 200 ∨ 300 ≤ resp.status) := by omega
  refine ⟨?_, ?_, by simp, ?_⟩
  · simp [get_recent_completions_usage, admin_get, hkey, hnet, hns]
  · simp [annotateUsage, hdata]
  · intro b hb
    refine ⟨fun hn => by simp [annotateBucket, hn], fun ts hts => ?_⟩
    exact ⟨hdom b hb ts hts, by simp [annotateBucket, hts],
      ⟨isoNaive ts, rfl⟩⟩

/-- Witness for C6: a successful fetch whose payload has one bucket with a
timestamp and one without. -/
theorem claim6_bucket_annotation_witness :
    (NetBehavior.success witRespC = NetBehavior.success witRespC ∧
      keyMissing (some "sk-admin") = false ∧
      (200 ≤ witRespC.status ∧ witRespC.status < 300) ∧
      witRespC.payload.data = some [witBucketTs, witBucketNoTs] ∧
      (∀ b ∈ [witBucketTs, witBucketNoTs], ∀ ts : Int,
        b.start_time = some ts → fromtimestampValid ts)) ∧
    ((get_recent_completions_usage (some "sk-admin")
        (NetBehavior.success witRespC) 1700000000 14 false).2 =
      Except.ok (annotateUsage witRespC.payload) ∧
    (annotateUsage witRespC.payload).data =
      some ([witBucketTs, witBucketNoTs].map annotateBucket) ∧
    ([witBucketTs, witBucketNoTs].map annotateBucket).length =
      [witBucketTs, witBucketNoTs].length ∧
    ∀ b ∈ [witBucketTs, witBucketNoTs],
      (b.start_time = none → annotateBucket b = b) ∧
      ∀ ts : Int, b.start_time = some ts →
        fromtimestampValid ts ∧
        annotateBucket b = { b with start_datetime := some (isoUtcZ ts) } ∧
        ∃ s, isoUtcZ ts = s ++ "Z") :=
  ⟨⟨rfl, by decide, by decide, rfl, by
      intro b hb ts hts
      rcases List.mem_cons.mp hb with rfl | hb1
      · simp only [witBucketTs] at hts
        injection hts with h
        rw [← h]
        exact ⟨by norm_num, by norm_num⟩
      · rcases List.mem_cons.mp hb1 with rfl | hb2
        · simp only [witBucketNoTs] at hts
          exact Option.noConfusion hts
        · cases hb2⟩,
    claim6_bucket_annotation (some "sk-admin")
      (NetBehavior.success witRespC) 1700000000 14 false witRespC
      [witBucketTs, witBucketNoTs] rfl (by decide) (by decide) rfl
      (by
        intro b hb ts hts
        rcases List.mem_cons.mp hb with rfl | hb1
        · simp only [witBucketTs] at hts
          injection hts with h
          rw [← h]
          exact ⟨by norm_num, by norm_num⟩
        · rcases List.mem_cons.mp hb1 with rfl | hb2
          · simp only [witBucketNoTs] at hts
            exact Option.noConfusion hts
          · cases hb2)⟩

/-! ## C7 — defaults for missing fields -/

/-- **C7.** A missing numeric field (input tokens, output tokens, request
count) renders as `"0"` in its column, and a missing model name displays
the literal `"(all models)"` (at the default display bound of 30). -/
theorem claim7_missing_field_defaults (d : String) (r : UsageResult) :
    (r.input_tokens = none → (mkRow d 30 r).input = "0") ∧
    (r.output_tokens = none → (mkRow d 30 r).output = "0") ∧
    (r.num_model_requests = none → (mkRow d 30 r).requests = "0") ∧
    (r.model = none → (mkRow d 30 r).model = "(all models)") := by
  refine ⟨fun h => ?_, fun h => ?_, fun h => ?_, fun h => ?_⟩
  · rw [mkRow_input, h]; rfl
  · rw [mkRow_output, h]; rfl
  · rw [mkRow_requests, h]; rfl
  · have hfull : modelFull r = "(all models)" := by simp [modelFull, h]
    rw [mkRow_model]
    simp only [modelDisplay, hfull]
    decide

/-- Witness for C7 on a result with every optional field absent. -/
theorem claim7_missing_field_defaults_witness :
    (witResultNone.input_tokens = none ∧ witResultNone.output_tokens = none ∧
      witResultNone.num_model_requests = none ∧ witResultNone.model = none) ∧
    ((mkRow "" 30 witResultNone).input = "0" ∧
      (mkRow "" 30 witResultNone).output = "0" ∧
      (mkRow "" 30 witResultNone).requests = "0" ∧
      (mkRow "" 30 witResultNone).model = "(all models)") :=
  ⟨⟨rfl, rfl, rfl, rfl⟩,
    (claim7_missing_field_defaults "" witResultNone).1 rfl,
    (claim7_missing_field_defaults "" witResultNone).2.1 rfl,
    (claim7_missing_field_defaults "" witResultNone).2.2.1 rfl,
    (claim7_missing_field_defaults "" witResultNone).2.2.2 rfl⟩

/-! ## C8 — model-name truncation -/

/-- **C8.** With a positive configured bound, a displayed model name
longer than the bound is truncated to exactly that many characters, and a
name within the bound is displayed in full. -/
theorem claim8_model_truncation (d : String) (m : Nat) (r : UsageResult)
    (hm : 0 < m) :
    (m < (modelFull r).length →
      (mkRow d m r).model = (modelFull r).take m ∧
        ((mkRow d m r).model).length = m) ∧
    ((modelFull r).length ≤ m → (mkRow d m r).model = modelFull r) := by
  constructor
  · intro hlt
    have he : (mkRow d m r).model = (modelFull r).take m := by
      rw [mkRow_model]
      simp only [modelDisplay]
      rw [if_pos ⟨hm, hlt⟩]
    refine ⟨he, ?_⟩
    rw [he, string_length_take]
    exact Nat.min_eq_left (Nat.le_of_lt hlt)
  · intro hle
    rw [mkRow_model]
    simp only [modelDisplay]
    rw [if_neg]
    rintro ⟨-, h2⟩
    omega

/-- Witness for C8: a 34-character model name truncated to the default
bound of 30. -/
theorem claim8_model_truncation_witness :
    (0 < 30 ∧ 30 < (modelFull witResultLong).length) ∧
    ((mkRow "" 30 witResultLong).model = (modelFull witResultLong).take 30 ∧
      ((mkRow "" 30 witResultLong).model).length = 30) :=
  ⟨⟨by decide, by decide⟩,
    (claim8_model_truncation "" 30 witResultLong (by decide)).1 (by decide)⟩

/-! ## Structure of the emitted rows -/

/-- With the first-of-day flag spent, the inner loop is a filter-and-map:
one row per matching result, all with empty date cells. -/
theorem resultsRows_false_eq (d : String) (m : Nat) (l : List UsageResult) :
    resultsRows d m false l =
      (l.filter isExpectedResult).map (mkRow "" m) := by
  induction l with
  | nil => rfl
  | cons r rs ih =>
    by_cases hr : r.object = some EXPECTED_OBJECT <;>
      simp [resultsRows, List.filter_cons, isExpectedResult, hr, ih]

/-- With the flag fresh, the first matching result carries the date string
and the rest get empty date cells. -/
theorem resultsRows_true_eq (d : String) (m : Nat) (l : List UsageResult) :
    resultsRows d m true l =
      match l.filter isExpectedResult with
      | [] => []
      | r :: rs => mkRow d m r :: rs.map (mkRow "" m) := by
  induction l with
  | nil => rfl
  | cons r rs ih =>
    by_cases hr : r.object = some EXPECTED_OBJECT
    · simp [resultsRows, List.filter_cons, isExpectedResult, hr,
        resultsRows_false_eq]
    · simp [resultsRows, List.filter_cons, isExpectedResult, hr, ih]

/-- The rows of one bucket: the matching results in order, the first with
the bucket's date string, the rest with empty date cells. -/
theorem bucketRows_eq (m : Nat) (b : UsageBucket) :
    bucketRows m b =
      match (bucketResults b).filter isExpectedResult with
      | [] => []
      | r :: rs => mkRow (bucketDateStr b) m r :: rs.map (mkRow "" m) := by
  rw [bucketRows]
  by_cases he : (bucketResults b).isEmpty
  · rw [List.isEmpty_iff] at he
    simp [he]
  · simp [he, resultsRows_true_eq]

/-- A bucket contributes exactly one row per result of the expected
type. -/
theorem bucketRows_length (m : Nat) (b : UsageBucket) :
    (bucketRows m b).length =
      ((bucketResults b).filter isExpectedResult).length := by
  rw [bucketRows_eq]
  cases h : (bucketResults b).filter isExpectedResult with
  | nil => rfl
  | cons r rs => simp

/-- Rows of a bucket of the payload are rows of the table. -/
theorem mem_tableRows_of_mem_bucketRows {u : Usage} {m : Nat}
    {b : UsageBucket} {r : Row} (hb : b ∈ u.data.getD [])
    (hr : r ∈ bucketRows m b) : r ∈ tableRows u m := by
  rw [tableRows]
  exact List.mem_flatMap.mpr ⟨b, hb, hr⟩

/-- Every table row is built by `mkRow`. -/
theorem mem_tableRows_shape {u : Usage} {m : Nat} {row : Row}
    (h : row ∈ tableRows u m) : ∃ d r, row = mkRow d m r := by
  rw [tableRows] at h
  obtain ⟨b, -, hrow⟩ := List.mem_flatMap.mp h
  rw [bucketRows_eq] at hrow
  cases hfil : (bucketResults b).filter isExpectedResult with
  | nil => rw [hfil] at hrow; cases hrow
  | cons r rs =>
    rw [hfil] at hrow
    rcases List.mem_cons.mp hrow with hr0 | hr1
    · exact ⟨bucketDateStr b, r, hr0⟩
    · obtain ⟨r1, -, heq⟩ := List.mem_map.mp hr1
      exact ⟨"", r1, heq.symm⟩

/-! ## C1 — one row per matching result, total = input + output -/

/-- **C1.** A bucket with exactly one result of the expected type yields
exactly one data row, and in every emitted row the Total cell is the
rendering of the Input value plus the Output value (the total is never
sourced independently). -/
theorem claim1_single_row_total (u : Usage) (m : Nat) (b : UsageBucket)
    (hb : b ∈ u.data.getD [])
    (hone : ((bucketResults b).filter isExpectedResult).length = 1) :
    (bucketRows m b).length = 1 ∧
    ∀ row ∈ tableRows u m, ∃ i o : Nat,
      row.input = toString i ∧ row.output = toString o ∧
        row.total = toString (i + o) := by
  refine ⟨by rw [bucketRows_length]; exact hone, fun row hrow => ?_⟩
  obtain ⟨d, r, rfl⟩ := mem_tableRows_shape hrow
  exact ⟨r.input_tokens.getD 0, r.output_tokens.getD 0,
    mkRow_input d m r, mkRow_output d m r, mkRow_total d m r⟩

/-- Witness for C1 on the spec's worked example. -/
theorem claim1_single_row_total_witness :
    (witBucketA ∈ witUsageA.data.getD [] ∧
      ((bucketResults witBucketA).filter isExpectedResult).length = 1) ∧
    ((bucketRows 30 witBucketA).length = 1 ∧
      ∀ row ∈ tableRows witUsageA 30, ∃ i o : Nat,
        row.input = toString i ∧ row.output = toString o ∧
          row.total = toString (i + o)) :=
  ⟨⟨by decide, by decide⟩,
    claim1_single_row_total witUsageA 30 witBucketA (by decide) (by decide)⟩

/-! ## C4 — rows are exactly the matching results, in payload order -/

/-- **C4.** The emitted data rows are exactly, in payload order, the
results of the expected type taken from each bucket's result list (read
under either tolerated field name, per `bucketResults`); a bucket with no
results contributes no rows, and a payload with zero buckets renders as
just the header and separator lines. -/
theorem claim4_rows_exact (u : Usage) (m : Nat) :
    tableRows u m = (u.data.getD []).flatMap (fun b =>
      match (bucketResults b).filter isExpectedResult with
      | [] => []
      | r :: rs => mkRow (bucketDateStr b) m r :: rs.map (mkRow "" m)) ∧
    (u.data.getD [] = [] →
      tableLines u m = [headerRow initWidths, separatorRow initWidths]) := by
  constructor
  · rw [tableRows]
    exact List.flatMap_congr fun b _ => bucketRows_eq m b
  · intro h
    simp [tableLines, tableRows, tableWidths, h]

/-- Witness for C4 on a payload with zero buckets. -/
theorem claim4_rows_exact_witness :
    (Usage.data { data := some [] } |>.getD []) = [] ∧
    tableLines { data := some [] } 30 =
      [headerRow initWidths, separatorRow initWidths] :=
  ⟨rfl, (claim4_rows_exact { data := some [] } 30).2 rfl⟩

/-! ## Width bookkeeping -/

theorem length_ljust (s : String) (w : Nat) :
    (ljust s w).length = max s.length w := by
  simp [ljust]
  omega

theorem length_rjust (s : String) (w : Nat) :
    (rjust s w).length = max s.length w := by
  simp [rjust]
  omega

theorem length_dashes (w : Nat) : (dashes w).length = w := by
  simp [dashes]

/-- Unfold a six-element intercalation. -/
theorem intercalate_six (sep a b c d e f : String) :
    String.intercalate sep [a, b, c, d, e, f] =
      a ++ sep ++ b ++ sep ++ c ++ sep ++ d ++ sep ++ e ++ sep ++ f := by
  simp [String.intercalate, String.intercalate.go]

theorem widthsLE_trans {v w x : Widths} (h1 : WidthsLE v w)
    (h2 : WidthsLE w x) : WidthsLE v x := by
  obtain ⟨a1, a2, a3, a4, a5, a6⟩ := h1
  obtain ⟨b1, b2, b3, b4, b5, b6⟩ := h2
  exact ⟨a1.trans b1, a2.trans b2, a3.trans b3, a4.trans b4,
    a5.trans b5, a6.trans b6⟩

theorem le_updateWidths (ws : Widths) (r : Row) :
    WidthsLE ws (updateWidths ws r) := by
  refine ⟨?_, ?_, ?_, ?_, ?_, ?_⟩ <;> simp [updateWidths]

theorem rowFits_updateWidths (ws : Widths) (r : Row) :
    RowFits (updateWidths ws r) r := by
  refine ⟨?_, ?_, ?_, ?_, ?_, ?_⟩ <;> simp [updateWidths]

theorem rowFits_mono {v w : Widths} {r : Row} (hle : WidthsLE v w)
    (h : RowFits v r) : RowFits w r := by
  obtain ⟨a1, a2, a3, a4, a5, a6⟩ := hle
  obtain ⟨b1, b2, b3, b4, b5, b6⟩ := h
  exact ⟨b1.trans a1, b2.trans a2, b3.trans a3, b4.trans a4,
    b5.trans a5, b6.trans a6⟩

/-- The width fold only grows the widths. -/
theorem widthsLE_foldl (l : List Row) (ws : Widths) :
    WidthsLE ws (l.foldl updateWidths ws) := by
  induction l generalizing ws with
  | nil => exact ⟨le_refl _, le_refl _, le_refl _, le_refl _, le_refl _, le_refl _⟩
  | cons r rs ih =>
    exact widthsLE_trans (le_updateWidths ws r) (ih (updateWidths ws r))

/-- Every row folded over fits inside the resulting widths. -/
theorem rowFits_foldl {r : Row} (l : List Row) (ws : Widths) (h : r ∈ l) :
    RowFits (l.foldl updateWidths ws) r := by
  induction l generalizing ws with
  | nil => cases h
  | cons x xs ih =>
    rcases List.mem_cons.mp h with rfl | hx
    · exact rowFits_mono (widthsLE_foldl xs (updateWidths ws r))
        (rowFits_updateWidths ws r)
    · exact ih (updateWidths ws x) hx

/-- The final widths dominate the header widths. -/
theorem initWidths_le_tableWidths (u : Usage) (m : Nat) :
    WidthsLE initWidths (tableWidths u m) :=
  widthsLE_foldl (tableRows u m) initWidths

/-- Every table row fits inside the final widths. -/
theorem rowFits_tableWidths {u : Usage} {m : Nat} {r : Row}
    (h : r ∈ tableRows u m) : RowFits (tableWidths u m) r :=
  rowFits_foldl (tableRows u m) initWidths h

/-- The header line is `lineLength` characters long whenever the widths
dominate the header label lengths. -/
theorem length_headerRow (ws : Widths) (h : WidthsLE initWidths ws) :
    (headerRow ws).length = lineLength ws := by
  obtain ⟨h1, h2, h3, h4, h5, h6⟩ := h
  simp only [initWidths] at h1 h2 h3 h4 h5 h6
  rw [headerRow, intercalate_six, lineLength]
  simp only [String.length_append, length_ljust]
  have e0 : ("| " : String).length = 2 := rfl
  have e1 : (" | " : String).length = 3 := rfl
  have e2 : (" |" : String).length = 2 := rfl
  have e3 : ("UTC Date" : String).length = 8 := rfl
  have e4 : ("Model" : String).length = 5 := rfl
  have e5 : ("Input" : String).length = 5 := rfl
  have e6 : ("Output" : String).length = 6 := rfl
  have e7 : ("Total" : String).length = 5 := rfl
  have e8 : ("Requests" : String).length = 8 := rfl
  rw [e3] at h1; rw [e4] at h2; rw [e5] at h3
  rw [e6] at h4; rw [e7] at h5; rw [e8] at h6
  rw [e0, e1, e2, e3, e4, e5, e6, e7, e8]
  omega

/-- The separator line is always `lineLength` characters long. -/
theorem length_separatorRow (ws : Widths) :
    (separatorRow ws).length = lineLength ws := by
  rw [separatorRow, intercalate_six, lineLength]
  simp only [String.length_append, length_dashes]
  have e0 : ("| " : String).length = 2 := rfl
  have e1 : (" | " : String).length = 3 := rfl
  have e2 : (" |" : String).length = 2 := rfl
  rw [e0, e1, e2]
  omega

/-- A data line is `lineLength` characters long whenever its row fits the
widths. -/
theorem length_renderRow (ws : Widths) (r : Row) (h : RowFits ws r) :
    (renderRow ws r).length = lineLength ws := by
  obtain ⟨h1, h2, h3, h4, h5, h6⟩ := h
  rw [renderRow, intercalate_six, lineLength]
  simp only [String.length_append, length_ljust, length_rjust]
  have e0 : ("| " : String).length = 2 := rfl
  have e1 : (" | " : String).length = 3 := rfl
  have e2 : (" |" : String).length = 2 := rfl
  rw [e0, e1, e2]
  omega

/-! ## C5 — date shown once per bucket, shared widths -/

/-- **C5.** In a bucket emitting at least two rows, the first row's date
cell is the bucket's date string and every later row of the bucket has an
empty date cell; all the bucket's rows are rendered against the same
tracked widths and so to the same line length. -/
theorem claim5_date_once_per_bucket (u : Usage) (m : Nat) (b : UsageBucket)
    (r0 : Row) (rest : List Row)
    (hb : b ∈ u.data.getD [])
    (hrows : bucketRows m b = r0 :: rest)
    (htwo : rest ≠ []) :
    r0.date = bucketDateStr b ∧
    (∀ r ∈ rest, r.date = "") ∧
    ∀ r ∈ bucketRows m b,
      (renderRow (tableWidths u m) r).length =
        (renderRow (tableWidths u m) r0).length := by
  have hchar := bucketRows_eq m b
  rw [hrows] at hchar
  cases hfil : (bucketResults b).filter isExpectedResult with
  | nil => rw [hfil] at hchar; cases hchar
  | cons r rs =>
    rw [hfil] at hchar
    injection hchar with h0 hrest
    have hr0 : r0 ∈ bucketRows m b := by rw [hrows]; exact List.mem_cons_self _ _
    refine ⟨by rw [h0, mkRow_date], fun rr hrr => ?_, fun rr hrr => ?_⟩
    · rw [hrest] at hrr
      obtain ⟨r1, -, heq⟩ := List.mem_map.mp hrr
      rw [← heq, mkRow_date]
    · rw [length_renderRow _ _ (rowFits_tableWidths
          (mem_tableRows_of_mem_bucketRows hb hrr)),
        length_renderRow _ _ (rowFits_tableWidths
          (mem_tableRows_of_mem_bucketRows hb hr0))]

/-- Witness for C5 on a bucket with two results of the expected type. -/
theorem claim5_date_once_per_bucket_witness :
    (witBucketB ∈ witUsageB.data.getD [] ∧
      bucketRows 30 witBucketB = [witRowB0, witRowB1] ∧
      ([witRowB1] : List Row) ≠ []) ∧
    (witRowB0.date = bucketDateStr witBucketB ∧
      (∀ r ∈ [witRowB1], r.date = "") ∧
      ∀ r ∈ bucketRows 30 witBucketB,
        (renderRow (tableWidths witUsageB 30) r).length =
          (renderRow (tableWidths witUsageB 30) witRowB0).length) :=
  ⟨⟨by decide, by decide, by decide⟩,
    claim5_date_once_per_bucket witUsageB 30 witBucketB witRowB0 [witRowB1]
      (by decide) (by decide) (by decide)⟩

/-! ## C10 — all lines share one length -/

/-- **C10.** Every line of the rendered table — header, separator and each
data row — has the same total character length: each cell is padded to the
tracked maximum width of its column over the header and all rows. -/
theorem claim10_uniform_line_length (u : Usage) (m : Nat) (line : String)
    (h : line ∈ tableLines u m) :
    line.length = (headerRow (tableWidths u m)).length := by
  have hhdr : (headerRow (tableWidths u m)).length =
      lineLength (tableWidths u m) :=
    length_headerRow _ (initWidths_le_tableWidths u m)
  simp only [tableLines, List.mem_cons, List.mem_map] at h
  rcases h with rfl | rfl | ⟨r, hr, rfl⟩
  · rfl
  · rw [length_separatorRow, hhdr]
  · rw [length_renderRow _ _ (rowFits_tableWidths hr), hhdr]

/-- Witness for C10: the separator line of the worked example has the
header line's length. -/
theorem claim10_uniform_line_length_witness :
    separatorRow (tableWidths witUsageA 30) ∈ tableLines witUsageA 30 ∧
    (separatorRow (tableWidths witUsageA 30)).length =
      (headerRow (tableWidths witUsageA 30)).length :=
  ⟨by decide,
    claim10_uniform_line_length witUsageA 30 _ (by decide)⟩

end TokenUsage
